import Mathlib

/-!
# Verification of the DMS-ODC document registry (src/index.tsx)

Shallow embedding of the sync/cache reconciliation core of the application:
the Remote Store Client (`syncWithGoogleSheet`), the repository operations
(`handleUpdateDocument`, `handleDeleteDocument`), the search/sort engine
(`handleSearch`, `renderRecentDocuments`, the table sort of
`renderResultsTable`, `beDateToTimestamp`) and the attachment validation
(`handleFileChange`).

Modelling conventions:
* `await` on a network call is embedded by passing the call's resolution as an
  explicit argument (an `Except` value); the sequence of fetch outcomes seen by
  the retrying client is an environment function `Nat → FetchOutcome`.
* JS strings are Lean `String`s; `String.toLowerCase` is `String.toLower`
  (the inputs of interest are ASCII-cased; Thai text has no case).
* `localStorage` is the `cache` field of `AppState`; `saveDocuments` writes the
  current collection into it.
* `Array.prototype.sort` is stable and is modelled by `List.mergeSort` on the
  "stays-before" relation `le a b ⇔ comparator a b ≤ 0`; per the ECMAScript
  `SortCompare` rule a NaN comparator value is treated as `+0`.
* `createdAt` is an ISO-8601 string in the source; the source only ever
  consumes it through `new Date(s).getTime()` (and copies it verbatim), so the
  embedding represents it directly by that epoch-milliseconds value.
* JSON bodies are abstracted to the shape the source inspects: either
  unparsable, or an object with optional `success`, `error`, `data` fields.
-/

namespace DMS

/-! ## JS string and number primitives -/

/-- `needle` occurs as a contiguous substring of `hay`
(JS `String.prototype.includes`). -/
def substrB (needle hay : String) : Bool :=
  decide (needle.toList <:+: hay.toList)

/-- JS `String.prototype.toLowerCase`, character-wise (computed over the
character list so that concrete instances reduce; agrees with core
`String.toLower`, which maps `Char.toLower` over the string). -/
def jsToLower (s : String) : String :=
  String.mk (s.toList.map Char.toLower)

/-- JS `String.prototype.trim`: strip leading and trailing whitespace. -/
def jsTrim (s : String) : String :=
  String.mk
    (((s.toList.dropWhile Char.isWhitespace).reverse.dropWhile
        Char.isWhitespace).reverse)

/-- JS `String.prototype.split` on a one-character separator, on character
lists: the empty string yields `[""]`, a trailing separator a trailing
empty part. -/
def splitChar (sep : Char) : List Char → List (List Char)
  | [] => [[]]
  | c :: cs =>
    let r := splitChar sep cs
    if c == sep then [] :: r
    else
      match r with
      | h :: t => (c :: h) :: t
      | [] => [[c]]

/-- JS `String.prototype.split` with a one-character separator. -/
def jsSplit (sep : Char) (s : String) : List String :=
  (splitChar sep s.toList).map String.mk

/-- Digit run to its decimal value. -/
def digitsToNat (cs : List Char) : Nat :=
  cs.foldl (fun a c => a * 10 + (c.toNat - 48)) 0

/-- JS `parseInt(s, 10)`: skip leading spaces, optional sign, then the longest
leading run of decimal digits; `none` models `NaN` (no digits found). -/
def parseIntJS (s : String) : Option Int :=
  let cs := s.toList.dropWhile (fun c => c == ' ')
  let signAndRest : Bool × List Char :=
    match cs with
    | '-' :: rest => (true, rest)
    | '+' :: rest => (false, rest)
    | _ => (false, cs)
  let ds := signAndRest.2.takeWhile Char.isDigit
  if ds.isEmpty then none
  else some (if signAndRest.1 then -(digitsToNat ds : Int) else (digitsToNat ds : Int))

/-- Days since 1970-01-01 of the civil date `y-m-d` (standard civil-from-days
algorithm, floor division).  `m` is expected in `1..12`; `d` may lie outside
the month and acts as a linear day offset, exactly matching the day-overflow
normalization of the JS `Date` constructor. -/
def daysFromCivil (y m d : Int) : Int :=
  let yy := if m ≤ 2 then y - 1 else y
  let era := yy.fdiv 400
  let yoe := yy - era * 400
  let mp := m + (if 2 < m then -3 else 9)
  let doy := (153 * mp + 2).fdiv 5 + (d - 1)
  let doe := yoe * 365 + yoe.fdiv 4 - yoe.fdiv 100 + doy
  era * 146097 + doe - 719468

def msPerDay : Int := 86400000

/-- `new Date(year, monthIndex, day).getTime()`: a year in `0..99` is read as
`1900 + year`, the month index is normalized into the year (floor/mod 12), and
the day offsets the first of the month.  The host's constant local-timezone
offset is omitted; it shifts every timestamp equally and preserves order. -/
def jsDateMs (year monthIndex day : Int) : Int :=
  let y := if 0 ≤ year ∧ year ≤ 99 then year + 1900 else year
  let total := y * 12 + monthIndex
  daysFromCivil (total.fdiv 12) (total.fmod 12 + 1) day * msPerDay

/-- `beDateToTimestamp` of src/index.tsx: split a `DD/MM/YYYY` Buddhist-Era
string, subtract 543 from the year, and take the JS `Date` value.  The empty
string and a wrong number of `/`-separated parts return 0 as in the source;
`none` models the `NaN` produced when a component fails to parse. -/
def beDateToTimestamp (beDateString : String) : Option Int :=
  if beDateString = "" then some 0
  else
    match jsSplit '/' beDateString with
    | [day, month, beYearS] =>
      match parseIntJS beYearS, parseIntJS month, parseIntJS day with
      | some beYear, some m, some d =>
        let gregorianYear := beYear - 543
        some (jsDateMs gregorianYear (m - 1) d)
      | _, _, _ => none
    | _ => some 0

/-- The validation regex for dates: two digits, a slash, two digits, a slash,
four digits, anchored at both ends. -/
def dateRegexTest (s : String) : Bool :=
  match s.toList with
  | [a, b, s1, c, d, s2, e, f, g, h] =>
    a.isDigit && b.isDigit && s1 == '/' && c.isDigit && d.isDigit && s2 == '/' &&
    e.isDigit && f.isDigit && g.isDigit && h.isDigit
  | _ => false

/-! ## The document record -/

/-- The `Document` interface of src/index.tsx.  `createdAt` (an ISO-8601
string in the source) is represented by its epoch-milliseconds value, the only
form in which the source consumes it. -/
structure Document where
  id : String
  docNumber : String
  source : String
  subject : String
  docDate : String
  notes : String
  tags : List String
  createdAt : Nat
  fileName : Option String := none
  fileContent : Option String := none
  fileType : Option String := none
deriving DecidableEq

/-! ## Remote Store Client (`syncWithGoogleSheet`) -/

/-- A JS `Error` value as the source discriminates it: the
`instanceof TypeError` test plus the message. -/
structure JsError where
  isTypeError : Bool
  message : String
deriving DecidableEq

/-- The rejection value of `fetch` on a transport-level failure. -/
def fetchFailedError : JsError := ⟨true, "Failed to fetch"⟩

/-- Fallback message when the server sends `success: false` with no usable
`error` field (line 34 of the source). -/
def genericSyncMsg : String :=
  "เกิดข้อผิดพลาดที่ไม่ทราบสาเหตุกับการซิงค์ Google Sheets"

/-- Message raised by the catch around response parsing (line 39). -/
def invalidResponseMsg : String :=
  "ได้รับข้อมูลตอบกลับที่ไม่ถูกต้องจากเซิร์ฟเวอร์"

/-- The descriptive connectivity/permissions message raised once the retry
budget for transport failures is exhausted (line 54). -/
def failedFetchDetailedMsg : String :=
  "การซิงค์ข้อมูลล้มเหลว (Failed to fetch) กรุณาตรวจสอบการเชื่อมต่ออินเทอร์เน็ต และตรวจสอบว่าสิทธิ์ของ Google Sheets Web App ถูกตั้งค่าให้ \"ทุกคน\" เข้าถึงได้"

/-- Outcome of `JSON.parse` on the response text, abstracted to the fields the
source inspects: either a parse failure, or an object with optional `success`,
`error` and `data` members. -/
inductive BodyJson where
  | unparsable
  | obj (success : Option Bool) (error : Option String) (data : Option (List Document))
deriving DecidableEq

structure HttpResponse where
  status : Nat
  body : BodyJson
deriving DecidableEq

/-- `Response.ok` of the Fetch API: status in the 2xx range. -/
def HttpResponse.ok (r : HttpResponse) : Bool :=
  200 ≤ r.status && r.status < 300

/-- What one `fetch` does: reject with `TypeError('Failed to fetch')` or
resolve with a response. -/
inductive FetchOutcome where
  | transportFailure
  | response (r : HttpResponse)
deriving DecidableEq

/-- JS `a || b` for an optional string: `undefined` and `""` are falsy. -/
def jsOrString (a : Option String) (b : String) : String :=
  match a with
  | some s => if s = "" then b else s
  | none => b

/-- The body of the inner `try` of `syncWithGoogleSheet` (lines 31-36): parse
the text, throw `Error(result.error || generic)` when the parsed object carries
an explicit `success: false`, otherwise return `result.data`. -/
def parseAttemptBody (b : BodyJson) : Except JsError (Option (List Document)) :=
  match b with
  | .unparsable => .error ⟨false, "SyntaxError: JSON parse failure"⟩
  | .obj success error data =>
    if success = some false then .error ⟨false, jsOrString error genericSyncMsg⟩
    else .ok data

/-- One attempt of `syncWithGoogleSheet` after `fetch` resolved: the
HTTP-status check (line 26), then the inner try/catch whose catch handler
(lines 37-40) replaces ANY error thrown inside the `try` — a JSON parse
failure, but equally the `success: false` error carrying the server-supplied
message — with the generic invalid-response error. -/
def attemptResult (r : HttpResponse) : Except JsError (Option (List Document)) :=
  if !r.ok then .error ⟨false, "HTTP error! status: " ++ toString r.status⟩
  else
    match parseAttemptBody r.body with
    | .error _ => .error ⟨false, invalidResponseMsg⟩
    | .ok d => .ok d

/-- `error instanceof TypeError && error.message === 'Failed to fetch'`
(line 43).  None of the errors produced by `attemptResult` satisfies it. -/
def isFetchTypeError (e : JsError) : Bool :=
  e.isTypeError && e.message == "Failed to fetch"

/-- `syncWithGoogleSheet(action, payload, retries, delay)`.  `env n` is the
outcome of the `n`-th fetch counting from `idx`; the second component is the
list of backoff delays actually slept, in order.  A resolved fetch never
retries (its errors are not fetch `TypeError`s and are rethrown by the outer
catch as they are); a transport failure retries with the current delay and a
doubled next delay while retries remain, and otherwise raises the detailed
connectivity/permissions error. -/
def syncWithGoogleSheet (env : Nat → FetchOutcome) (idx retries delay : Nat) :
    Except JsError (Option (List Document)) × List Nat :=
  match env idx with
  | .response r => (attemptResult r, [])
  | .transportFailure =>
    match retries with
    | r + 1 =>
      let k := syncWithGoogleSheet env (idx + 1) r (delay * 2)
      (k.1, delay :: k.2)
    | 0 => (.error ⟨false, failedFetchDetailedMsg⟩, [])

/-- `syncWithGoogleSheet` at its default arguments (`retries = 2`,
`delay = 1000`). -/
def syncDefault (env : Nat → FetchOutcome) :
    Except JsError (Option (List Document)) × List Nat :=
  syncWithGoogleSheet env 0 2 1000

/-! ## Repository state and the mutating handlers -/

/-- The mutable state the handlers touch: the in-memory `documents` array and
the `localStorage` mirror written by `saveDocuments`. -/
structure AppState where
  documents : List Document
  cache : List Document
deriving DecidableEq

inductive ToastKind where
  | success
  | error
deriving DecidableEq

/-- A `showToast` call. -/
structure Toast where
  kind : ToastKind
  message : String
deriving DecidableEq

/-- A `syncWithGoogleSheet` invocation, by action and payload. -/
inductive RemoteCall where
  | create (d : Document)
  | update (d : Document)
  | delete (id : String)
  | read
deriving DecidableEq

/-- Result of running a handler: the state afterwards, the remote calls it
issued (in order) and the toasts it showed (in order). -/
structure HandlerOut where
  state : AppState
  calls : List RemoteCall
  toasts : List Toast
deriving DecidableEq

/-- `handleDeleteDocument` of src/index.tsx.  `confirmed` is the answer of the
`confirm()` dialog; `remote` is the resolution of
`await syncWithGoogleSheet('delete', {id})`.  An id absent from the collection
returns before the dialog and before any remote call; on remote success the
entry is filtered out and `saveDocuments` persists the new collection; on
remote failure only an error toast is shown. -/
def handleDeleteDocument (st : AppState) (docId : String) (confirmed : Bool)
    (remote : Except JsError Unit) : HandlerOut :=
  match st.documents.find? (fun d => d.id == docId) with
  | none => ⟨st, [], []⟩
  | some _ =>
    if confirmed then
      match remote with
      | .ok _ =>
        let docs := st.documents.filter (fun d => !(d.id == docId))
        ⟨⟨docs, docs⟩, [.delete docId], [⟨.success, "ลบเอกสารเรียบร้อยแล้ว"⟩]⟩
      | .error e => ⟨st, [.delete docId], [⟨.error, e.message⟩]⟩
    else ⟨st, [], []⟩

/-- The new attachment chosen in the edit form, already read: `name`, `type`
and the base64 `content` produced by `fileToBase64`. -/
structure FilePayload where
  name : String
  type : String
  content : String
deriving DecidableEq

/-- The edit-form fields `handleUpdateDocument` reads: the five text inputs
plus the optionally chosen replacement file. -/
structure UpdatePatch where
  docNumber : String
  docDate : String
  source : String
  subject : String
  notes : String
  file : Option FilePayload
deriving DecidableEq

/-- The inline validation of the save/update forms (lines 322-341): the three
required text fields are non-blank after trimming and the trimmed date matches
the `DD/MM/YYYY` regex. -/
def patchValid (p : UpdatePatch) : Bool :=
  !(jsTrim p.docNumber == "") &&
  (!(jsTrim p.docDate == "") && dateRegexTest (jsTrim p.docDate)) &&
  !(jsTrim p.source == "") && !(jsTrim p.subject == "")

/-- The construction of `updatedDocData` (lines 355-370): spread of the
existing document with the form fields written over it (only `docDate` is
trimmed in the source), and the attachment triple overwritten only when a new
file was chosen.  The legacy `fileName2`/`fileContent2`/`fileType2` deletions
have no counterpart here because `Document` carries no such fields. -/
def applyPatch (old : Document) (p : UpdatePatch) : Document :=
  let base := { old with
    docNumber := p.docNumber
    docDate := jsTrim p.docDate
    source := p.source
    subject := p.subject
    notes := p.notes }
  match p.file with
  | some f =>
    { base with fileName := some f.name, fileType := some f.type,
                fileContent := some f.content }
  | none => base

/-- `handleUpdateDocument` of src/index.tsx.  An invalid form returns before
the lookup; an id absent from the collection (`findIndex === -1`) returns
before any remote call; otherwise the merged document is sent with action
`update` and, on success only, written in place and persisted. -/
def handleUpdateDocument (st : AppState) (docId : String) (p : UpdatePatch)
    (remote : Except JsError Unit) : HandlerOut :=
  if !patchValid p then ⟨st, [], []⟩
  else
    let i := st.documents.findIdx (fun d => d.id == docId)
    if h : i < st.documents.length then
      let old := st.documents.get ⟨i, h⟩
      let updated := applyPatch old p
      match remote with
      | .ok _ =>
        let docs := st.documents.set i updated
        ⟨⟨docs, docs⟩, [.update updated], [⟨.success, "แก้ไขเอกสารเรียบร้อยแล้ว"⟩]⟩
      | .error e => ⟨st, [.update updated], [⟨.error, e.message⟩]⟩
    else ⟨st, [], []⟩

/-! ## Attachment validation (`handleFileChange`) -/

structure JsFile where
  name : String
  size : Nat
  type : String
deriving DecidableEq

inductive FileChangeResult where
  | accepted (displayName : String)
  | rejectedSize (msg : String)
  | rejectedType (msg : String)
  | noFile
deriving DecidableEq

def maxFileSize : Nat := 50 * 1024 * 1024

def allowedTypes : List String :=
  ["image/jpeg", "image/png", "image/gif", "application/pdf"]

/-- `handleFileChange` of src/index.tsx (lines 188-213), a purely local DOM
validation: nothing in it performs a network request or touches the document
collection or the cache.  Oversized files are rejected first, then files with
a MIME type outside the allow-list; otherwise the file name is displayed. -/
def handleFileChange (file : Option JsFile) : FileChangeResult :=
  match file with
  | none => .noFile
  | some f =>
    if maxFileSize < f.size then .rejectedSize "ขนาดไฟล์เกิน 50MB"
    else if !(allowedTypes.contains f.type) then
      .rejectedType "ชนิดไฟล์ไม่ถูกต้อง (ต้องเป็นรูปภาพหรือ PDF)"
    else .accepted f.name

/-! ## Search and sort -/

/-- The per-document predicate of `handleSearch` (lines 518-525), with `query`
already lowercased and trimmed as in line 511.  `fileName` is guarded by `&&`
(an absent file name is falsy and the disjunct is false). -/
def docMatches (query : String) (doc : Document) : Bool :=
  substrB query (jsToLower doc.subject) ||
  substrB query (jsToLower doc.docNumber) ||
  substrB query (jsToLower doc.source) ||
  substrB query (jsToLower doc.notes) ||
  (match doc.fileName with
   | some f => substrB query (jsToLower f)
   | none => false) ||
  doc.tags.any (fun t => substrB query (jsToLower t))

/-- The most-recent-10 list of `renderRecentDocuments` (line 496): stable sort
by `createdAt` descending, then the first 10 entries. -/
def recentDocuments (documents : List Document) : List Document :=
  (documents.mergeSort (fun a b => decide (b.createdAt ≤ a.createdAt))).take 10

/-- What `handleSearch` renders: the recent view for a blank query, or the
filtered result list. -/
inductive SearchOutput where
  | recent (docs : List Document)
  | results (docs : List Document)
deriving DecidableEq

/-- `handleSearch` of src/index.tsx: lowercase and trim the raw input; an
empty query delegates to `renderRecentDocuments`, otherwise the collection is
filtered by `docMatches`. -/
def handleSearch (documents : List Document) (rawQuery : String) : SearchOutput :=
  let query := jsTrim (jsToLower rawQuery)
  if query = "" then .recent (recentDocuments documents)
  else .results (documents.filter (docMatches query))

inductive SortDir where
  | asc
  | desc
deriving DecidableEq

/-- The `currentSort` state. -/
structure SortState where
  key : String
  direction : SortDir
deriving DecidableEq

/-- `a[key]` coerced to a string with `|| ''` (lines 442-443), for the keys
that fall through to `localeCompare`. -/
def docField (d : Document) (key : String) : String :=
  if key = "docNumber" then d.docNumber
  else if key = "source" then d.source
  else if key = "subject" then d.subject
  else if key = "docDate" then d.docDate
  else if key = "notes" then d.notes
  else if key = "id" then d.id
  else ""

/-- The `docDate` branch of the comparator as a stays-before relation
(comparator value ≤ 0).  When a timestamp is NaN the comparator value is NaN,
which the ECMAScript `SortCompare` operation turns into `+0` — both orders are
then allowed, hence `true`. -/
def docDateLe (dir : SortDir) (a b : Document) : Bool :=
  match beDateToTimestamp a.docDate, beDateToTimestamp b.docDate with
  | some ta, some tb =>
    match dir with
    | .asc => decide (ta ≤ tb)
    | .desc => decide (tb ≤ ta)
  | _, _ => true

/-- The comparator of `renderResultsTable` (lines 428-448) as a Boolean
stays-before relation, `le a b ⇔ comparator a b ≤ 0`.  `localeCompare` with
the Thai collator is abstracted as code-point string comparison (order details
of that branch are outside every claim). -/
def sortLe (s : SortState) (a b : Document) : Bool :=
  if s.key = "docDate" then docDateLe s.direction a b
  else if s.key = "createdAt" then
    match s.direction with
    | .asc => decide (a.createdAt ≤ b.createdAt)
    | .desc => decide (b.createdAt ≤ a.createdAt)
  else
    match s.direction with
    | .asc => decide (docField a s.key ≤ docField b s.key)
    | .desc => decide (docField b s.key ≤ docField a s.key)

/-- The display order produced by `renderResultsTable`: a stable sort of the
rendered list under the current sort state. -/
def sortDocs (s : SortState) (docs : List Document) : List Document :=
  docs.mergeSort (sortLe s)

/-- The `data-sort-direction` attribute rendered on a header by `getSortAttr`
(lines 469-471): present only on the currently sorted column. -/
def headerDirAttr (cur : SortState) (key : String) : Option SortDir :=
  if cur.key = key then some cur.direction else none

/-- The sortable-header click handler (lines 747-763): read the direction
attribute rendered on the clicked header, switch to ascending exactly when the
clicked key is the current one and currently shown descending, otherwise
descending; then make the clicked key current. -/
def toggleSort (cur : SortState) (sortKey : String) : SortState :=
  let currentDirection := headerDirAttr cur sortKey
  let dir :=
    if cur.key = sortKey ∧ currentDirection = some SortDir.desc then SortDir.asc
    else SortDir.desc
  ⟨sortKey, dir⟩

/-! ## Search over the unvalidated remote collection

The initial sync (line 773) assigns `documents = sheetData` without any
validation, so at runtime the collection can hold records whose fields are
absent even though the TypeScript type says otherwise.  `RawDoc` is a document
as it can actually arrive; only the fields the search path touches are
modelled. -/

structure RawDoc where
  subject : Option String
  docNumber : Option String
  source : Option String
  notes : Option String
  fileName : Option String
  tags : Option (List String)
deriving DecidableEq

/-- The `TypeError` thrown when a property of `undefined` is read. -/
def typeErrorUndefined : JsError :=
  ⟨true, "TypeError: undefined has no properties"⟩

/-- The filter predicate of `handleSearch` evaluated with JS dynamic
semantics: the `||` chain is evaluated left to right and each disjunct only
when all previous ones were falsy.  Reading `.toLowerCase()` of an absent
`subject`, `docNumber`, `source` or `notes`, or `.some` of absent `tags`,
throws; `fileName` alone is guarded by `&&` (absent is falsy). -/
def docMatchesDyn (query : String) (d : RawDoc) : Except JsError Bool :=
  match d.subject with
  | none => .error typeErrorUndefined
  | some subject =>
    if substrB query (jsToLower subject) then .ok true
    else
      match d.docNumber with
      | none => .error typeErrorUndefined
      | some docNumber =>
        if substrB query (jsToLower docNumber) then .ok true
        else
          match d.source with
          | none => .error typeErrorUndefined
          | some source =>
            if substrB query (jsToLower source) then .ok true
            else
              match d.notes with
              | none => .error typeErrorUndefined
              | some notes =>
                if substrB query (jsToLower notes) then .ok true
                else
                  let fnMatch :=
                    match d.fileName with
                    | some f => substrB query (jsToLower f)
                    | none => false
                  if fnMatch then .ok true
                  else
                    match d.tags with
                    | none => .error typeErrorUndefined
                    | some ts => .ok (ts.any (fun t => substrB query (jsToLower t)))

/-- `Array.prototype.filter` with a predicate that can throw: elements are
visited in order and the first throw aborts the whole call. -/
def filterDyn (p : RawDoc → Except JsError Bool) : List RawDoc → Except JsError (List RawDoc)
  | [] => .ok []
  | x :: xs =>
    match p x with
    | .error e => .error e
    | .ok b =>
      match filterDyn p xs with
      | .error e => .error e
      | .ok rest => .ok (if b then x :: rest else rest)

/-- `handleSearch` on the dynamically-typed collection.  `none` is the blank
query, on which the handler renders the recent view instead of filtering;
otherwise the result (or the thrown error) of the filter. -/
def handleSearchDyn (docs : List RawDoc) (rawQuery : String) :
    Option (Except JsError (List RawDoc)) :=
  let query := jsTrim (jsToLower rawQuery)
  if query = "" then none
  else some (filterDyn (docMatchesDyn query) docs)

/-! ## Sample data used by witnesses and counterexamples -/

def sampleDoc : Document :=
  { id := "doc_1", docNumber := "001/2566", source := "กองกลาง",
    subject := "ขอเชิญประชุม", docDate := "01/01/2566", notes := "",
    tags := ["ประชุม"], createdAt := 1000 }

def sampleDoc2 : Document :=
  { id := "doc_2", docNumber := "002/2566", source := "กองคลัง",
    subject := "แจ้งเวียน", docDate := "01/01/2565", notes := "",
    tags := [], createdAt := 2000 }

def samplePatch : UpdatePatch :=
  { docNumber := "003/2566", docDate := "02/02/2566", source := "กองกลาง",
    subject := "เรื่องใหม่", notes := "หมายเหตุ", file := none }

/-! ## Theorems -/

/-- C2: at the default arguments (`retries = 2`, `delay = 1000`) the client
retries only on transport-level failure, so a resolved fetch — an HTTP non-2xx
status or an unparsable body included — settles the call at once with no
delay; a transport failure is retried after 1000ms and then after 2000ms, at
most two additional attempts, and a third consecutive transport failure fails
with the descriptive connectivity/permissions message.  The last two conjuncts
spell out the immediate failures of a resolved attempt: a non-2xx status fails
with the HTTP-status error and a 2xx status with an unparsable body fails with
the invalid-response error. -/
theorem c2_retry_policy (env : Nat → FetchOutcome) :
    (∀ r, env 0 = .response r → syncDefault env = (attemptResult r, [])) ∧
    (env 0 = .transportFailure → ∀ r, env 1 = .response r →
      syncDefault env = (attemptResult r, [1000])) ∧
    (env 0 = .transportFailure → env 1 = .transportFailure → ∀ r, env 2 = .response r →
      syncDefault env = (attemptResult r, [1000, 2000])) ∧
    (env 0 = .transportFailure → env 1 = .transportFailure → env 2 = .transportFailure →
      syncDefault env = (.error ⟨false, failedFetchDetailedMsg⟩, [1000, 2000])) ∧
    (∀ r : HttpResponse, r.ok = false →
      attemptResult r = .error ⟨false, "HTTP error! status: " ++ toString r.status⟩) ∧
    (∀ st : Nat, HttpResponse.ok ⟨st, .unparsable⟩ = true →
      attemptResult ⟨st, .unparsable⟩ = .error ⟨false, invalidResponseMsg⟩) := by
  refine ⟨?_, ?_, ?_, ?_, ?_, ?_⟩
  · intro r h0
    simp [syncDefault, syncWithGoogleSheet, h0]
  · intro h0 r h1
    simp [syncDefault, syncWithGoogleSheet, h0, h1]
  · intro h0 h1 r h2
    simp [syncDefault, syncWithGoogleSheet, h0, h1, h2]
  · intro h0 h1 h2
    simp [syncDefault, syncWithGoogleSheet, h0, h1, h2]
  · intro r hr
    simp [attemptResult, hr]
  · intro st hok
    simp [attemptResult, hok, parseAttemptBody]

theorem c2_retry_policy_witness :
    syncDefault (fun _ => .transportFailure)
      = (.error ⟨false, failedFetchDetailedMsg⟩, [1000, 2000]) :=
  (c2_retry_policy (fun _ => .transportFailure)).2.2.2.1 rfl rfl rfl

/-- C3 (code bug): a response that parses with an explicit `success: false`
flag never surfaces the server-supplied error message.  The source builds the
intended error `Error(result.error || generic)` on line 34 — the third
conjunct shows it would carry the server message — but throws it inside the
very `try` whose `catch` (line 39) replaces every inner error by the generic
invalid-response message, so the call fails with that generic message instead.
Evaluated at the failing input: status 200, body
`{"success": false, "error": "quota exceeded"}`. -/
theorem c3_server_message_swallowed :
    syncDefault (fun _ => .response ⟨200, .obj (some false) (some "quota exceeded") none⟩)
      = (.error ⟨false, invalidResponseMsg⟩, []) ∧
    invalidResponseMsg ≠ "quota exceeded" ∧
    jsOrString (some "quota exceeded") genericSyncMsg = "quota exceeded" := by
  refine ⟨rfl, by decide, rfl⟩

/-- C1: when the remote client fails during delete, the in-memory collection
(hence its length) and the local cache are exactly as before — for every
state, id and confirmation answer; the entry is removed and the new collection
persisted to the cache precisely in the success branch. -/
theorem c1_delete_remote_first (st : AppState) (docId : String) (confirmed : Bool)
    (e : JsError) :
    (handleDeleteDocument st docId confirmed (.error e)).state = st ∧
    (handleDeleteDocument st docId confirmed (.error e)).state.documents.length
      = st.documents.length ∧
    (handleDeleteDocument st docId confirmed (.error e)).state.cache = st.cache ∧
    ((st.documents.find? (fun d => d.id == docId)).isSome → confirmed = true →
      (handleDeleteDocument st docId confirmed (.ok ())).state.documents
        = st.documents.filter (fun d => !(d.id == docId)) ∧
      (handleDeleteDocument st docId confirmed (.ok ())).state.cache
        = st.documents.filter (fun d => !(d.id == docId))) := by
  have herr : (handleDeleteDocument st docId confirmed (.error e)).state = st := by
    unfold handleDeleteDocument
    rcases hf : st.documents.find? (fun d => d.id == docId) with _ | d
    · simp [hf]
    · cases confirmed <;> simp [hf]
  refine ⟨herr, by rw [herr], by rw [herr], ?_⟩
  intro hsome hconf
  rcases hf : st.documents.find? (fun d => d.id == docId) with _ | d
  · rw [hf] at hsome; cases hsome
  · subst hconf
    constructor <;> simp [handleDeleteDocument, hf]

theorem c1_delete_remote_first_witness :
    (handleDeleteDocument ⟨[sampleDoc], [sampleDoc]⟩ "doc_1" true (.ok ())).state.documents
      = ([sampleDoc].filter (fun d => !(d.id == "doc_1"))) :=
  ((c1_delete_remote_first ⟨[sampleDoc], [sampleDoc]⟩ "doc_1" true
    ⟨false, "err"⟩).2.2.2 (by decide) rfl).1

/-- C4: updating a present document with a valid patch keeps `id`, `createdAt`
(and `tags`, which the edit form does not carry) from the original; the
attachment triple is kept whenever no new file is supplied and replaced by the
new file's data otherwise; the patch fields `docNumber`, `docDate` (trimmed),
`source`, `subject` and `notes` overwrite the originals; on remote success the
merged document replaces the entry in place. -/
theorem c4_update_preserves_frame (st : AppState) (docId : String) (p : UpdatePatch)
    (hv : patchValid p = true) (i : Nat)
    (hfind : st.documents.findIdx (fun d => d.id == docId) = i)
    (h : i < st.documents.length) :
    (handleUpdateDocument st docId p (.ok ())).state.documents
      = st.documents.set i (applyPatch (st.documents.get ⟨i, h⟩) p) ∧
    ∀ old : Document,
      (applyPatch old p).id = old.id ∧
      (applyPatch old p).createdAt = old.createdAt ∧
      (applyPatch old p).tags = old.tags ∧
      (p.file = none →
        (applyPatch old p).fileName = old.fileName ∧
        (applyPatch old p).fileContent = old.fileContent ∧
        (applyPatch old p).fileType = old.fileType) ∧
      (applyPatch old p).docNumber = p.docNumber ∧
      (applyPatch old p).docDate = jsTrim p.docDate ∧
      (applyPatch old p).source = p.source ∧
      (applyPatch old p).subject = p.subject ∧
      (applyPatch old p).notes = p.notes ∧
      (∀ f, p.file = some f →
        (applyPatch old p).fileName = some f.name ∧
        (applyPatch old p).fileContent = some f.content ∧
        (applyPatch old p).fileType = some f.type) := by
  constructor
  · unfold handleUpdateDocument
    rw [hv]
    simp only [Bool.not_true, Bool.false_eq_true, if_false, hfind, dif_pos h]
  · intro old
    rcases hfile : p.file with _ | f <;>
      simp [applyPatch, hfile]

theorem c4_update_preserves_frame_witness :
    (handleUpdateDocument ⟨[sampleDoc], [sampleDoc]⟩ "doc_1" samplePatch (.ok ())).state.documents
      = [sampleDoc].set 0 (applyPatch sampleDoc samplePatch) :=
  (c4_update_preserves_frame ⟨[sampleDoc], [sampleDoc]⟩ "doc_1" samplePatch
    (by decide) 0 (by decide) (by decide)).1

/-- C7: clicking the currently active sort key flips the direction (and keeps
the key), so two clicks on the active key restore the sort state and hence the
displayed order of whatever list is rendered; clicking a key different from
the active one selects it with direction descending. -/
theorem c7_sort_toggle (st : SortState) (k : String) (docs : List Document) :
    (st.key = k →
      (toggleSort st k).key = k ∧
      (toggleSort st k).direction
        = (match st.direction with | .asc => .desc | .desc => .asc) ∧
      toggleSort (toggleSort st k) k = st ∧
      sortDocs (toggleSort (toggleSort st k) k) docs = sortDocs st docs) ∧
    (st.key ≠ k → toggleSort st k = ⟨k, .desc⟩) := by
  obtain ⟨key, dir⟩ := st
  constructor
  · rintro rfl
    cases dir <;> simp [toggleSort, headerDirAttr]
  · intro hne
    simp only [SortState.key] at hne
    cases dir <;> simp [toggleSort, headerDirAttr, hne]

theorem c7_sort_toggle_witness :
    toggleSort (toggleSort ⟨"docDate", SortDir.desc⟩ "docDate") "docDate"
      = ⟨"docDate", SortDir.desc⟩ :=
  ((c7_sort_toggle ⟨"docDate", SortDir.desc⟩ "docDate" []).1 rfl).2.2.1

/-- C8 counterexample: with an id absent from the collection, both handlers
return before doing anything — in particular no toast is shown, refuting the
claimed user notification.  (The patch used is valid, so the update handler
reaches the lookup; the collection, cache, remote-call list and toast list are
all untouched.) -/
theorem c8_claim_counterexample :
    (handleUpdateDocument ⟨[sampleDoc], [sampleDoc]⟩ "missing" samplePatch (.ok ())).toasts
      = [] ∧
    (handleDeleteDocument ⟨[sampleDoc], [sampleDoc]⟩ "missing" true (.ok ())).toasts
      = [] ∧
    (handleUpdateDocument ⟨[sampleDoc], [sampleDoc]⟩ "missing" samplePatch (.ok ()))
      = ⟨⟨[sampleDoc], [sampleDoc]⟩, [], []⟩ ∧
    (handleDeleteDocument ⟨[sampleDoc], [sampleDoc]⟩ "missing" true (.ok ()))
      = ⟨⟨[sampleDoc], [sampleDoc]⟩, [], []⟩ := by
  refine ⟨rfl, rfl, by decide, by decide⟩

/-- C8 amended: an id absent from the in-memory collection makes update and
delete silent no-ops — no error is raised and no user notification is shown;
no remote call is made and the collection and cache are unchanged. -/
theorem c8_missing_id_silent_noop (st : AppState) (docId : String) (p : UpdatePatch)
    (confirmed : Bool) (remote : Except JsError Unit)
    (habs : ∀ d ∈ st.documents, d.id ≠ docId) :
    handleUpdateDocument st docId p remote = ⟨st, [], []⟩ ∧
    handleDeleteDocument st docId confirmed remote = ⟨st, [], []⟩ := by
  have hbeq : ∀ d ∈ st.documents, (d.id == docId) = false := by
    intro d hd
    exact beq_eq_false_iff_ne.mpr (habs d hd)
  have hfind : st.documents.findIdx (fun d => d.id == docId) = st.documents.length :=
    List.findIdx_eq_length.mpr hbeq
  have hnone : st.documents.find? (fun d => d.id == docId) = none :=
    List.find?_eq_none.mpr (by intro d hd; rw [hbeq d hd]; exact Bool.false_ne_true)
  constructor
  · unfold handleUpdateDocument
    by_cases hv : patchValid p
    · rw [hv]
      simp [hfind]
    · simp [hv]
  · unfold handleDeleteDocument
    rw [hnone]

theorem c8_missing_id_silent_noop_witness :
    handleDeleteDocument ⟨[sampleDoc], [sampleDoc]⟩ "missing" true (.ok ())
      = ⟨⟨[sampleDoc], [sampleDoc]⟩, [], []⟩ :=
  (c8_missing_id_silent_noop ⟨[sampleDoc], [sampleDoc]⟩ "missing" samplePatch
    true (.ok ()) (by decide)).2

/-- C9: an attachment is accepted (its name displayed, no error) exactly when
its MIME type is allow-listed and its size is at most 50MB, the boundary
inclusive: exactly 50·1024·1024 bytes is accepted, 51MB is rejected.
`handleFileChange` is purely local — it performs no network call and leaves
the collection and cache untouched. -/
theorem c9_attachment_bounds :
    (∀ f : JsFile,
      handleFileChange (some f) = .accepted f.name ↔
        f.size ≤ maxFileSize ∧ f.type ∈ allowedTypes) ∧
    handleFileChange (some ⟨"a.pdf", 50 * 1024 * 1024, "application/pdf"⟩)
      = .accepted "a.pdf" ∧
    handleFileChange (some ⟨"b.pdf", 51 * 1024 * 1024, "application/pdf"⟩)
      = .rejectedSize "ขนาดไฟล์เกิน 50MB" := by
  refine ⟨?_, by decide, by decide⟩
  intro f
  have hmem : allowedTypes.contains f.type = true ↔ f.type ∈ allowedTypes := by
    simp [List.contains, List.elem_iff]
  have hred : handleFileChange (some f)
      = (if maxFileSize < f.size then FileChangeResult.rejectedSize "ขนาดไฟล์เกิน 50MB"
         else if (!allowedTypes.contains f.type) = true then
           FileChangeResult.rejectedType "ชนิดไฟล์ไม่ถูกต้อง (ต้องเป็นรูปภาพหรือ PDF)"
         else FileChangeResult.accepted f.name) := rfl
  rw [hred]
  by_cases hs : maxFileSize < f.size
  · rw [if_pos hs]
    constructor
    · intro h; simp at h
    · rintro ⟨hsize, -⟩; omega
  · rw [if_neg hs]
    cases ht : allowedTypes.contains f.type with
    | false =>
      simp only [ht, Bool.not_false, if_true]
      constructor
      · intro h; simp at h
      · rintro ⟨-, hm⟩
        exact absurd (hmem.mpr hm) (by rw [ht]; exact Bool.false_ne_true)
    | true =>
      simp only [ht, Bool.not_true, Bool.false_eq_true, if_false]
      constructor
      · intro _
        exact ⟨by omega, hmem.mp ht⟩
      · intro _
        trivial

theorem c9_attachment_bounds_witness :
    handleFileChange (some ⟨"c.png", 100, "image/png"⟩) = .accepted "c.png" :=
  (c9_attachment_bounds.1 ⟨"c.png", 100, "image/png"⟩).mpr (by decide)

/-- `mergeSort` of a two-element list: ordered by one comparison. -/
theorem mergeSort_pair (le : Document → Document → Bool) (a b : Document) :
    List.mergeSort [a, b] le = if le a b then [a, b] else [b, a] := by
  unfold List.mergeSort
  simp only [List.splitInTwo, List.splitAt_eq, List.take, List.drop]
  norm_num
  by_cases h : le a b
  · simp [h, List.merge]
  · simp [h, List.merge]

/-- C5: for a query that is non-blank after lowercasing and trimming, the
rendered result is the sublist of exactly those documents matched by the
lowercased-substring predicate `docMatches` over subject, document number,
source, notes, attachment file name and tags (membership in the result is
equivalent to membership in the collection plus a match).  For a blank query
the recent view is rendered: the first 10 entries of the stable
`createdAt`-descending sort — `min 10 n` entries, sorted descending, all
drawn from the collection, and every kept entry at least as recent as every
dropped one.  In particular the query "abc" matches the document whose tags
contain "ABC" and not the one with no matching field. -/
theorem c5_search_semantics (documents : List Document) (rawQuery : String) :
    (jsTrim (jsToLower rawQuery) ≠ "" →
      handleSearch documents rawQuery
        = .results (documents.filter (docMatches (jsTrim (jsToLower rawQuery)))) ∧
      ∀ d, (d ∈ documents.filter (docMatches (jsTrim (jsToLower rawQuery)))
        ↔ d ∈ documents ∧ docMatches (jsTrim (jsToLower rawQuery)) d = true)) ∧
    (jsTrim (jsToLower rawQuery) = "" →
      handleSearch documents rawQuery = .recent (recentDocuments documents) ∧
      (recentDocuments documents).length = min 10 documents.length ∧
      (recentDocuments documents).Pairwise
        (fun a b => b.createdAt ≤ a.createdAt) ∧
      (∀ d ∈ recentDocuments documents, d ∈ documents) ∧
      (∀ x ∈ recentDocuments documents,
        ∀ y ∈ (documents.mergeSort
            (fun a b => decide (b.createdAt ≤ a.createdAt))).drop 10,
          y.createdAt ≤ x.createdAt)) ∧
    handleSearch [{ sampleDoc with tags := ["ABC"] }, sampleDoc2] "abc"
      = .results [{ sampleDoc with tags := ["ABC"] }] := by
  have htrans : ∀ a b c : Document,
      (fun a b : Document => decide (b.createdAt ≤ a.createdAt)) a b →
      (fun a b : Document => decide (b.createdAt ≤ a.createdAt)) b c →
      (fun a b : Document => decide (b.createdAt ≤ a.createdAt)) a c := by
    intro a b c hab hbc
    simp only [decide_eq_true_eq] at *
    omega
  have htotal : ∀ a b : Document,
      (fun a b : Document => decide (b.createdAt ≤ a.createdAt)) a b ||
      (fun a b : Document => decide (b.createdAt ≤ a.createdAt)) b a := by
    intro a b
    simp only [Bool.or_eq_true, decide_eq_true_eq]
    omega
  have hsorted := List.sorted_mergeSort htrans htotal documents
  refine ⟨?_, ?_, by decide⟩
  · intro hq
    refine ⟨?_, fun d => List.mem_filter⟩
    simp only [handleSearch]
    rw [if_neg hq]
  · intro hq
    refine ⟨?_, ?_, ?_, ?_, ?_⟩
    · simp only [handleSearch]
      rw [if_pos hq]
    · simp [recentDocuments]
    · exact ((hsorted.sublist (List.take_sublist 10 _)).imp
        (fun h => by simpa using h))
    · intro d hd
      exact List.mem_mergeSort.mp (List.take_subset 10 _ hd)
    · intro x hx y hy
      have hsplit := List.take_append_drop 10
        (documents.mergeSort (fun a b => decide (b.createdAt ≤ a.createdAt)))
      rw [← hsplit] at hsorted
      have := (List.pairwise_append.mp hsorted).2.2 x hx y hy
      simpa using this

theorem c5_search_semantics_witness :
    handleSearch [{ sampleDoc with tags := ["ABC"] }, sampleDoc2] "abc"
      = .results (([{ sampleDoc with tags := ["ABC"] }, sampleDoc2]).filter
          (docMatches (jsTrim (jsToLower "abc")))) :=
  ((c5_search_semantics [{ sampleDoc with tags := ["ABC"] }, sampleDoc2] "abc").1
    (by decide)).1

/-- C6: `beDateToTimestamp` composes the calendar value of the
Buddhist-Era-to-Gregorian conversion — the year component minus 543 — for
every parsed `D/M/Y` string (first conjunct); the descending `docDate`
comparator of `renderResultsTable` orders by exactly those values (second
conjunct); in particular the sort of the claim puts "01/01/2566" before
"01/01/2565". -/
theorem c6_bedate_sort (s ds ms ys : String) (d m y : Int)
    (hs : s ≠ "") (hsplit : jsSplit '/' s = [ds, ms, ys])
    (hd : parseIntJS ds = some d) (hm : parseIntJS ms = some m)
    (hy : parseIntJS ys = some y) :
    beDateToTimestamp s = some (jsDateMs (y - 543) (m - 1) d) ∧
    (∀ a b : Document, ∀ ta tb : Int,
      beDateToTimestamp a.docDate = some ta →
      beDateToTimestamp b.docDate = some tb →
      sortLe ⟨"docDate", .desc⟩ a b = decide (tb ≤ ta)) ∧
    (sortDocs ⟨"docDate", .desc⟩ [sampleDoc2, sampleDoc]).map Document.docDate
      = ["01/01/2566", "01/01/2565"] := by
  refine ⟨?_, ?_, ?_⟩
  · simp [beDateToTimestamp, hs, hsplit, hd, hm, hy]
  · intro a b ta tb hta htb
    simp [sortLe, docDateLe, hta, htb]
  · rw [sortDocs, mergeSort_pair]
    decide

theorem c6_bedate_sort_witness :
    beDateToTimestamp "01/01/2566" = some (jsDateMs (2566 - 543) (1 - 1) 1) :=
  (c6_bedate_sort "01/01/2566" "01" "01" "2566" 1 1 2566
    (by decide) (by decide) (by decide) (by decide) (by decide)).1

/-- If some element of the list makes the (possibly throwing) predicate
throw, the whole filter throws. -/
theorem filterDyn_error_of_mem {p : RawDoc → Except JsError Bool}
    {docs : List RawDoc} {d : RawDoc} (hd : d ∈ docs) {e : JsError}
    (he : p d = .error e) : ∃ e2, filterDyn p docs = .error e2 := by
  induction docs with
  | nil => cases hd
  | cons x xs ih =>
    cases hx : p x with
    | error e3 => exact ⟨e3, by simp [filterDyn, hx]⟩
    | ok b =>
      rcases List.mem_cons.mp hd with rfl | hmem
      · rw [hx] at he
        cases he
      · obtain ⟨e2, h2⟩ := ih hmem
        refine ⟨e2, ?_⟩
        simp only [filterDyn, hx, h2]

/-- C10 counterexample: a collection containing a document whose `notes` and
`tags` are both absent, on which a non-empty-query search does NOT throw: the
subject disjunct matches, `||` short-circuits, the absent fields are never
read, and the document is returned as a match — refuting both the
"unconditionally calls" reading and the claimed unconditional throw. -/
theorem c10_claim_counterexample :
    handleSearchDyn [⟨some "abc", some "1", some "s", none, none, none⟩] "abc"
      = some (.ok [⟨some "abc", some "1", some "s", none, none, none⟩]) := by
  rfl

/-- C10 amended: search evaluates the six disjuncts left-to-right with
short-circuiting, so `notes.toLowerCase()` (resp. `tags.some`) is reached on a
document only when no earlier field matched; whenever the collection contains
a document on which the predicate throws — in particular one whose `notes` is
absent while its subject, document number and source do not match the query
(second conjunct) — a search with a non-empty query throws instead of
returning matches. -/
theorem c10_search_throws_on_missing_fields (docs : List RawDoc) (rawQuery : String)
    (hq : jsTrim (jsToLower rawQuery) ≠ "")
    (d : RawDoc) (hd : d ∈ docs) (e : JsError)
    (he : docMatchesDyn (jsTrim (jsToLower rawQuery)) d = .error e) :
    (∃ e2, handleSearchDyn docs rawQuery = some (.error e2)) ∧
    (∀ q : String, ∀ d2 : RawDoc, ∀ sub num src : String,
      d2.subject = some sub → d2.docNumber = some num → d2.source = some src →
      d2.notes = none →
      substrB q (jsToLower sub) = false → substrB q (jsToLower num) = false →
      substrB q (jsToLower src) = false →
      docMatchesDyn q d2 = .error typeErrorUndefined) := by
  constructor
  · obtain ⟨e2, h2⟩ := filterDyn_error_of_mem hd he
    refine ⟨e2, ?_⟩
    simp only [handleSearchDyn]
    rw [if_neg hq, h2]
  · intro q d2 sub num src hsub hnum hsrc hnotes h1 h2 h3
    simp only [docMatchesDyn, hsub, hnum, hsrc, hnotes, h1, h2, h3,
      Bool.false_eq_true, if_false]

theorem c10_search_throws_on_missing_fields_witness :
    ∃ e2, handleSearchDyn [⟨some "x", some "y", some "z", none, none, none⟩] "abc"
      = some (.error e2) :=
  (c10_search_throws_on_missing_fields
    [⟨some "x", some "y", some "z", none, none, none⟩] "abc" (by decide)
    ⟨some "x", some "y", some "z", none, none, none⟩ (by simp)
    typeErrorUndefined (by rfl)).1

end DMS
